import Mathlib

/-!
Shallow embedding of the BACnet Binary Value object module
(`src/src/bacnet/basic/object/bv.c`) and proofs about its property
protocol handler.

The per-object record, the getters/setters, the present-value write path,
the read dispatch and the write dispatch are translated directly from the
C source.  Collaborators that live outside `src/` (the keylist container,
the application-value decoder, the tag-validation helper, and the BACnet
enumeration constants) are modelled from the specification; each such
definition carries a doc comment saying so.
-/

/-- Modelled from the spec: BACnet enumeration constants from the stack
headers (bacdef.h / bacenum.h), which are outside src/.  The binary
present-value type is two-valued: inactive = 0, active = 1. -/
def BINARY_INACTIVE : Nat := 0

/-- Modelled from the spec: the active binary present-value. -/
def BINARY_ACTIVE : Nat := 1

/-- Modelled from the spec: upper bound of the two-valued binary domain
(`value <= MAX_BINARY_PV` accepts exactly 0 and 1). -/
def MAX_BINARY_PV : Nat := 1

/-- Modelled from the spec: the polarity enumeration has two members
(Normal = 0, Reverse = 1), so its exclusive maximum is 2. -/
def MAX_POLARITY : Nat := 2

/-- Modelled from the spec: POLARITY_NORMAL enumeration member. -/
def POLARITY_NORMAL : Nat := 0

/-- Modelled from the spec: reliability code 0 means no fault. -/
def RELIABILITY_NO_FAULT_DETECTED : Nat := 0

/-- Modelled from the spec: the wildcard / invalid instance sentinel
(0x3FFFFF). -/
def BACNET_MAX_INSTANCE : Nat := 4194303

/-- Modelled from the spec: the default array index meaning "whole value"
(0xFFFFFFFF). -/
def BACNET_ARRAY_ALL : Nat := 4294967295

/-- Modelled from the spec: the object-type enumeration member for
binary-value objects. -/
def OBJECT_BINARY_VALUE : Nat := 5

/-- Modelled from the spec: the constant normal event state. -/
def EVENT_STATE_NORMAL : Nat := 0

/-- Modelled from the spec: BACnet property identifiers (bacenum.h). -/
def PROP_ACTIVE_TEXT : Nat := 4

/-- Modelled from the spec: property identifier for description. -/
def PROP_DESCRIPTION : Nat := 28

/-- Modelled from the spec: property identifier for event-state. -/
def PROP_EVENT_STATE : Nat := 36

/-- Modelled from the spec: property identifier for inactive-text. -/
def PROP_INACTIVE_TEXT : Nat := 46

/-- Modelled from the spec: property identifier for object-identifier. -/
def PROP_OBJECT_IDENTIFIER : Nat := 75

/-- Modelled from the spec: property identifier for object-name. -/
def PROP_OBJECT_NAME : Nat := 77

/-- Modelled from the spec: property identifier for object-type. -/
def PROP_OBJECT_TYPE : Nat := 79

/-- Modelled from the spec: property identifier for out-of-service. -/
def PROP_OUT_OF_SERVICE : Nat := 81

/-- Modelled from the spec: property identifier for polarity. -/
def PROP_POLARITY : Nat := 84

/-- Modelled from the spec: property identifier for present-value. -/
def PROP_PRESENT_VALUE : Nat := 85

/-- Modelled from the spec: property identifier for the (unsupported)
priority-array, the one array-typed property mentioned by the dispatch. -/
def PROP_PRIORITY_ARRAY : Nat := 87

/-- Modelled from the spec: property identifier for reliability. -/
def PROP_RELIABILITY : Nat := 103

/-- Modelled from the spec: property identifier for status-flags. -/
def PROP_STATUS_FLAGS : Nat := 111

/-- Modelled from the spec: the BACNET_ERROR_CLASS values used by this
module (error class object and error class property). -/
inductive ErrCls where
  | object
  | property
deriving DecidableEq

/-- Modelled from the spec: the BACNET_ERROR_CODE values used by this
module. -/
inductive ErrCode where
  | unknownObject
  | unknownProperty
  | writeAccessDenied
  | valueOutOfRange
  | propertyIsNotAnArray
deriving DecidableEq

/-- The per-instance record `struct object_data` of bv.c (bitfields become
plain booleans; the C string pointers, which may be NULL, become
`Option String`). -/
structure ObjectData where
  Out_Of_Service : Bool
  Change_Of_Value : Bool
  Present_Value : Bool
  Write_Enabled : Bool
  Polarity : Bool
  Reliability : Nat
  Object_Name : Option String
  Active_Text : Option String
  Inactive_Text : Option String
  Description : Option String
deriving DecidableEq

/-- Modelled from the spec: the keylist container (keylist.c is outside
src/) is an ordered map from a 32-bit instance number to the object
record, represented as a list of key/record pairs sorted by key. -/
abbrev Keylist := List (Nat × ObjectData)

/-- Modelled from the spec: lookup of the record stored under a key. -/
def Keylist_Data : Keylist → Nat → Option ObjectData
  | [], _ => none
  | (k0, d0) :: t, k => if k0 = k then some d0 else Keylist_Data t k

/-- Modelled from the spec: sorted insertion of a key/record pair. -/
def Keylist_Data_Add : Keylist → Nat → ObjectData → Keylist
  | [], k, d => [(k, d)]
  | (k0, d0) :: t, k, d =>
    if k < k0 then (k, d) :: (k0, d0) :: t else (k0, d0) :: Keylist_Data_Add t k d

/-- The keys of a keylist, in list order. -/
def keysOf (l : Keylist) : List Nat := l.map Prod.fst

/-- Fuel-driven search for the first key not in `keys`, starting at `k`;
with fuel exceeding the number of keys it always finds one. -/
def nextEmptyFrom (keys : List Nat) : Nat → Nat → Nat
  | 0, k => k
  | fuel + 1, k => if k ∈ keys then nextEmptyFrom keys fuel (k + 1) else k

/-- Modelled from the spec: `Keylist_Next_Empty_Key` returns the lowest
key ≥ the given key that is not present in the list. -/
def Keylist_Next_Empty_Key (l : Keylist) (k : Nat) : Nat :=
  nextEmptyFrom (keysOf l) (l.length + 1) k

/-- In-place mutation of the record stored under a key (the C code
mutates through the pointer returned by lookup, so the key keeps its
position in the list). -/
def Keylist_Update : Keylist → Nat → ObjectData → Keylist
  | [], _, _ => []
  | (k0, d0) :: t, k, d =>
    if k0 = k then (k, d) :: Keylist_Update t k d
    else (k0, d0) :: Keylist_Update t k d

/-- A callback invocation event: (instance, old value, new value), the
arguments the C code passes to the registered present-value callback. -/
abbrev CbEvent := Nat × Nat × Nat

/-- The module state: the object list plus whether the single
process-wide present-value callback slot is occupied (non-NULL). -/
structure BVState where
  objects : Keylist
  callback : Bool
deriving DecidableEq

/-- bv.c `Binary_Value_Object`: lookup by instance number. -/
def Binary_Value_Object (st : BVState) (object_instance : Nat) : Option ObjectData :=
  Keylist_Data st.objects object_instance

/-- Replace the record of one instance in the state. -/
def updateObject (st : BVState) (object_instance : Nat) (d : ObjectData) : BVState :=
  { st with objects := Keylist_Update st.objects object_instance d }

/-- bv.c `Binary_Value_Present_Value` (lines 148-166): the stored bit,
complemented when polarity is not normal; inactive when the instance is
unknown. -/
def Binary_Value_Present_Value (st : BVState) (object_instance : Nat) : Nat :=
  match Binary_Value_Object st object_instance with
  | none => BINARY_INACTIVE
  | some pObject =>
    let value := if pObject.Present_Value then 1 else 0
    if pObject.Polarity then
      (if value = BINARY_INACTIVE then BINARY_ACTIVE else BINARY_INACTIVE)
    else value

/-- bv.c `Binary_Value_Present_Value_COV_Detect` (lines 173-181): sets
the change-of-value flag when the stored bit differs from the new value.
The C null-pointer guard is omitted because every caller passes a record
obtained from a successful lookup. -/
def Binary_Value_Present_Value_COV_Detect (pObject : ObjectData) (value : Nat) : ObjectData :=
  if (if pObject.Present_Value then 1 else 0) ≠ value then
    { pObject with Change_Of_Value := true }
  else pObject

/-- bv.c `Binary_Value_Out_Of_Service` getter. -/
def Binary_Value_Out_Of_Service (st : BVState) (object_instance : Nat) : Bool :=
  match Binary_Value_Object st object_instance with
  | none => false
  | some pObject => pObject.Out_Of_Service

/-- bv.c `Binary_Value_Out_Of_Service_Set` (lines 209-222): no-op when
unchanged, otherwise updates the flag and sets change-of-value. -/
def Binary_Value_Out_Of_Service_Set (st : BVState) (object_instance : Nat) (value : Bool) : BVState :=
  match Binary_Value_Object st object_instance with
  | none => st
  | some pObject =>
    if pObject.Out_Of_Service ≠ value then
      updateObject st object_instance
        { pObject with Out_Of_Service := value, Change_Of_Value := true }
    else st

/-- bv.c `Binary_Value_Reliability` getter. -/
def Binary_Value_Reliability (st : BVState) (object_instance : Nat) : Nat :=
  match Binary_Value_Object st object_instance with
  | none => RELIABILITY_NO_FAULT_DETECTED
  | some pObject => pObject.Reliability

/-- bv.c `Binary_Value_Object_Fault` (lines 248-259): fault iff the
reliability code is nonzero (false for a NULL record). -/
def Binary_Value_Object_Fault : Option ObjectData → Bool
  | none => false
  | some pObject => pObject.Reliability != RELIABILITY_NO_FAULT_DETECTED

/-- bv.c `Binary_Value_Reliability_Set` (lines 269-289): in-range codes
are stored verbatim; change-of-value is set when the fault status
(nonzero code) flips. -/
def Binary_Value_Reliability_Set (st : BVState) (object_instance : Nat) (value : Nat) :
    Bool × BVState :=
  match Binary_Value_Object st object_instance with
  | none => (false, st)
  | some pObject =>
    if value ≤ 255 then
      let fault := Binary_Value_Object_Fault (some pObject)
      let p1 := { pObject with Reliability := value }
      let p2 :=
        if fault ≠ Binary_Value_Object_Fault (some p1) then
          { p1 with Change_Of_Value := true }
        else p1
      (true, updateObject st object_instance p2)
    else (false, st)

/-- bv.c `Binary_Value_Fault` (lines 296-303). -/
def Binary_Value_Fault (st : BVState) (object_instance : Nat) : Bool :=
  Binary_Value_Object_Fault (Binary_Value_Object st object_instance)

/-- bv.c `Binary_Value_Present_Value_Set` (lines 380-403): the
administrative present-value setter.  It polarity-corrects the incoming
value, runs change detection with the corrected value, and then stores
the constant `true` (bv.c line 397). -/
def Binary_Value_Present_Value_Set (st : BVState) (object_instance : Nat) (value : Nat) :
    Bool × BVState :=
  match Binary_Value_Object st object_instance with
  | none => (false, st)
  | some pObject =>
    if value ≤ MAX_BINARY_PV then
      let value :=
        if pObject.Polarity then
          (if value = BINARY_INACTIVE then BINARY_ACTIVE else BINARY_INACTIVE)
        else value
      let p1 := Binary_Value_Present_Value_COV_Detect pObject value
      let p2 := { p1 with Present_Value := true }
      (true, updateObject st object_instance p2)
    else (false, st)

/-- bv.c `Binary_Value_Present_Value_Write` (lines 415-456): the
protocol-driven present-value write.  Returns the C status flag, the new
state, the list of callback invocations performed, and the pair written
to the error out-parameters (none when they are left untouched). -/
def Binary_Value_Present_Value_Write (st : BVState) (object_instance : Nat) (value : Nat) :
    Bool × BVState × List CbEvent × Option (ErrCls × ErrCode) :=
  match Binary_Value_Object st object_instance with
  | none => (false, st, [], some (ErrCls.object, ErrCode.unknownObject))
  | some pObject =>
    if value ≤ MAX_BINARY_PV then
      if pObject.Write_Enabled then
        let old_value := if pObject.Present_Value then 1 else 0
        let p1 := Binary_Value_Present_Value_COV_Detect pObject value
        let p2 := { p1 with Present_Value := value != 0 }
        let events : List CbEvent :=
          if p2.Out_Of_Service then []
          else if st.callback then [(object_instance, old_value, value)] else []
        (true, updateObject st object_instance p2, events, none)
      else (false, st, [], some (ErrCls.property, ErrCode.writeAccessDenied))
    else (false, st, [], some (ErrCls.property, ErrCode.valueOutOfRange))

/-- bv.c `Binary_Value_Object_Name` (lines 464-484): the stored name, or
a formatted default when none was set; none when the instance is
unknown. -/
def Binary_Value_Object_Name (st : BVState) (object_instance : Nat) : Option String :=
  match Binary_Value_Object st object_instance with
  | none => none
  | some pObject =>
    match pObject.Object_Name with
    | none => some ("BINARY INPUT " ++ toString object_instance)
    | some n => some n

/-- bv.c `Binary_Value_Polarity` getter (POLARITY_NORMAL when the
instance is unknown). -/
def Binary_Value_Polarity (st : BVState) (object_instance : Nat) : Nat :=
  match Binary_Value_Object st object_instance with
  | none => POLARITY_NORMAL
  | some pObject => if pObject.Polarity then 1 else 0

/-- bv.c `Binary_Value_Polarity_Set` (lines 532-544): stores the polarity
(nonzero means reverse) but the status variable is never set, so the
function always returns false. -/
def Binary_Value_Polarity_Set (st : BVState) (object_instance : Nat) (polarity : Nat) :
    Bool × BVState :=
  match Binary_Value_Object st object_instance with
  | none => (false, st)
  | some pObject =>
    (false, updateObject st object_instance { pObject with Polarity := polarity != 0 })

/-- bv.c `Binary_Value_Description` (empty string when the stored pointer
is NULL; none when the instance is unknown). -/
def Binary_Value_Description (st : BVState) (object_instance : Nat) : Option String :=
  match Binary_Value_Object st object_instance with
  | none => none
  | some pObject => some (pObject.Description.getD (""))

/-- bv.c `Binary_Value_Active_Text` getter. -/
def Binary_Value_Active_Text (st : BVState) (object_instance : Nat) : Option String :=
  match Binary_Value_Object st object_instance with
  | none => none
  | some pObject => pObject.Active_Text

/-- bv.c `Binary_Value_Inactive_Text` getter. -/
def Binary_Value_Inactive_Text (st : BVState) (object_instance : Nat) : Option String :=
  match Binary_Value_Object st object_instance with
  | none => none
  | some pObject => pObject.Inactive_Text

/-- bv.c `Binary_Value_Write_Enabled` getter. -/
def Binary_Value_Write_Enabled (st : BVState) (object_instance : Nat) : Bool :=
  match Binary_Value_Object st object_instance with
  | none => false
  | some pObject => pObject.Write_Enabled

/-- The required property list of bv.c (the -1 terminator of the C array
is dropped). -/
def Binary_Value_Properties_Required : List Nat :=
  [PROP_OBJECT_IDENTIFIER, PROP_OBJECT_NAME, PROP_OBJECT_TYPE, PROP_PRESENT_VALUE,
   PROP_STATUS_FLAGS, PROP_EVENT_STATE, PROP_OUT_OF_SERVICE]

/-- The optional property list of bv.c. -/
def Binary_Value_Properties_Optional : List Nat :=
  [PROP_DESCRIPTION, PROP_RELIABILITY, PROP_ACTIVE_TEXT, PROP_INACTIVE_TEXT]

/-- The proprietary property list of bv.c (empty). -/
def Binary_Value_Properties_Proprietary : List Nat := []

/-- Modelled from the spec: `property_lists_member` (outside src/) tests
membership of a property identifier in the three lists. -/
def property_lists_member (required opt proprietary : List Nat) (p : Nat) : Bool :=
  required.contains p || opt.contains p || proprietary.contains p

/-- What a successful read of one property serializes.  Each constructor
stands for one of the application encoders used by the read dispatch; in
the C code every such encoder returns a positive byte count, so a
successful switch branch always leaves `apdu_len > 0`. -/
inductive Payload where
  | objectId (objType : Nat) (inst : Nat)
  | charString (s : String)
  | enumerated (v : Nat)
  | bitString (bits : List Bool)
  | boolean (b : Bool)
deriving DecidableEq

/-- Outcome of the read dispatch: serialized payload, or an error class
and code (apdu_len = BACNET_STATUS_ERROR). -/
inductive ReadOutcome where
  | ok (payload : Payload)
  | err (cls : ErrCls) (code : ErrCode)
deriving DecidableEq

/-- The read-request fields of BACNET_READ_PROPERTY_DATA used by the
dispatch. -/
structure RPData where
  object_instance : Nat
  object_property : Nat
  array_index : Nat
deriving DecidableEq

/-- bv.c `Binary_Value_Read_Property` (lines 682-773): the property
switch followed by the array-index override, which turns any successful
encode into PropertyIsNotAnArray when a non-default array index was
supplied for a property other than the priority-array. -/
def Binary_Value_Read_Property (st : BVState) (rpdata : RPData) : ReadOutcome :=
  let r : ReadOutcome :=
    if rpdata.object_property = PROP_OBJECT_IDENTIFIER then
      ReadOutcome.ok (Payload.objectId OBJECT_BINARY_VALUE rpdata.object_instance)
    else if rpdata.object_property = PROP_OBJECT_NAME then
      ReadOutcome.ok (Payload.charString ((Binary_Value_Object_Name st rpdata.object_instance).getD ("")))
    else if rpdata.object_property = PROP_OBJECT_TYPE then
      ReadOutcome.ok (Payload.enumerated OBJECT_BINARY_VALUE)
    else if rpdata.object_property = PROP_PRESENT_VALUE then
      ReadOutcome.ok (Payload.enumerated (Binary_Value_Present_Value st rpdata.object_instance))
    else if rpdata.object_property = PROP_STATUS_FLAGS then
      ReadOutcome.ok (Payload.bitString
        [false, Binary_Value_Fault st rpdata.object_instance, false,
         Binary_Value_Out_Of_Service st rpdata.object_instance])
    else if rpdata.object_property = PROP_EVENT_STATE then
      ReadOutcome.ok (Payload.enumerated EVENT_STATE_NORMAL)
    else if rpdata.object_property = PROP_OUT_OF_SERVICE then
      ReadOutcome.ok (Payload.boolean (Binary_Value_Out_Of_Service st rpdata.object_instance))
    else if rpdata.object_property = PROP_POLARITY then
      ReadOutcome.ok (Payload.enumerated (Binary_Value_Polarity st rpdata.object_instance))
    else if rpdata.object_property = PROP_RELIABILITY then
      ReadOutcome.ok (Payload.enumerated (Binary_Value_Reliability st rpdata.object_instance))
    else if rpdata.object_property = PROP_DESCRIPTION then
      ReadOutcome.ok (Payload.charString ((Binary_Value_Description st rpdata.object_instance).getD ("")))
    else if rpdata.object_property = PROP_ACTIVE_TEXT then
      ReadOutcome.ok (Payload.charString ((Binary_Value_Active_Text st rpdata.object_instance).getD ("")))
    else if rpdata.object_property = PROP_INACTIVE_TEXT then
      ReadOutcome.ok (Payload.charString ((Binary_Value_Inactive_Text st rpdata.object_instance).getD ("")))
    else ReadOutcome.err ErrCls.property ErrCode.unknownProperty
  match r with
  | ReadOutcome.ok payload =>
    if rpdata.object_property != PROP_PRIORITY_ARRAY
        && rpdata.array_index != BACNET_ARRAY_ALL then
      ReadOutcome.err ErrCls.property ErrCode.propertyIsNotAnArray
    else ReadOutcome.ok payload
  | ReadOutcome.err cls code => ReadOutcome.err cls code

/-- The expected application tags used by the write dispatch. -/
inductive AppTag where
  | enumerated
  | boolean
deriving DecidableEq

/-- A decoded BACNET_APPLICATION_DATA_VALUE: the tag together with the
union member the dispatch reads. -/
inductive AppValue where
  | enumerated (v : Nat)
  | boolean (b : Bool)
  | otherTag
deriving DecidableEq

/-- Modelled from the spec: the tag-validation helper
`write_property_type_valid` (outside src/) checks the decoded value's
tag against the expected tag. -/
def write_property_type_valid : AppValue → AppTag → Bool
  | AppValue.enumerated _, AppTag.enumerated => true
  | AppValue.boolean _, AppTag.boolean => true
  | _, _ => false

/-- The `value.type.Enumerated` union read (only performed after the tag
check established the enumerated tag). -/
def typeEnumerated : AppValue → Nat
  | AppValue.enumerated v => v
  | _ => 0

/-- The `value.type.Boolean` union read. -/
def typeBoolean : AppValue → Bool
  | AppValue.boolean b => b
  | _ => false

/-- The write-request fields of BACNET_WRITE_PROPERTY_DATA used by the
dispatch.  `decoded` is the result of the external
`bacapp_decode_application_data`: none stands for a negative length
(decode failure). -/
structure WPData where
  object_instance : Nat
  object_property : Nat
  array_index : Nat
  application_data_len : Nat
  decoded : Option AppValue
deriving DecidableEq

/-- bv.c `Binary_Value_Write_Property` (lines 783-862): empty-data early
return, decode-failure check, array-index check, then the property
switch.  Per the spec, failed type validation is classified as
ValueOutOfRange.  Returns the status, the new state, the callback
invocations and the pair written to the error fields. -/
def Binary_Value_Write_Property (st : BVState) (wp_data : WPData) :
    Bool × BVState × List CbEvent × Option (ErrCls × ErrCode) :=
  if wp_data.application_data_len = 0 then (false, st, [], none)
  else
    match wp_data.decoded with
    | none => (false, st, [], some (ErrCls.property, ErrCode.valueOutOfRange))
    | some value =>
      if wp_data.object_property != PROP_PRIORITY_ARRAY
          && wp_data.array_index != BACNET_ARRAY_ALL then
        (false, st, [], some (ErrCls.property, ErrCode.propertyIsNotAnArray))
      else if wp_data.object_property = PROP_PRESENT_VALUE then
        if write_property_type_valid value AppTag.enumerated then
          Binary_Value_Present_Value_Write st wp_data.object_instance (typeEnumerated value)
        else (false, st, [], some (ErrCls.property, ErrCode.valueOutOfRange))
      else if wp_data.object_property = PROP_OUT_OF_SERVICE then
        if write_property_type_valid value AppTag.boolean then
          (true, Binary_Value_Out_Of_Service_Set st wp_data.object_instance (typeBoolean value),
           [], none)
        else (false, st, [], some (ErrCls.property, ErrCode.valueOutOfRange))
      else if wp_data.object_property = PROP_POLARITY then
        if write_property_type_valid value AppTag.enumerated then
          if typeEnumerated value < MAX_POLARITY then
            (true, (Binary_Value_Polarity_Set st wp_data.object_instance (typeEnumerated value)).2,
             [], none)
          else (false, st, [], some (ErrCls.property, ErrCode.valueOutOfRange))
        else (false, st, [], some (ErrCls.property, ErrCode.valueOutOfRange))
      else if property_lists_member Binary_Value_Properties_Required
          Binary_Value_Properties_Optional Binary_Value_Properties_Proprietary
          wp_data.object_property then
        (false, st, [], some (ErrCls.property, ErrCode.writeAccessDenied))
      else (false, st, [], some (ErrCls.property, ErrCode.unknownProperty))

/-- The freshly initialized record of bv.c `Binary_Value_Create`
(lines 942-953). -/
def defaultObjectData : ObjectData :=
  { Out_Of_Service := false
    Change_Of_Value := false
    Present_Value := false
    Write_Enabled := false
    Polarity := false
    Reliability := RELIABILITY_NO_FAULT_DETECTED
    Object_Name := none
    Active_Text := some ("Active")
    Inactive_Text := some ("Inactive")
    Description := none }

/-- bv.c `Binary_Value_Create` (lines 925-966).  `allocOk` models the
success of the heap allocation (calloc and the keylist node): when false
the function fails with the sentinel, as in the C code. -/
def Binary_Value_Create (allocOk : Bool) (st : BVState) (object_instance : Nat) :
    Nat × BVState :=
  if object_instance > BACNET_MAX_INSTANCE then (BACNET_MAX_INSTANCE, st)
  else
    let object_instance :=
      if object_instance = BACNET_MAX_INSTANCE then Keylist_Next_Empty_Key st.objects 1
      else object_instance
    match Keylist_Data st.objects object_instance with
    | some _ => (object_instance, st)
    | none =>
      if allocOk then
        (object_instance,
         { st with objects := Keylist_Data_Add st.objects object_instance defaultObjectData })
      else (BACNET_MAX_INSTANCE, st)

/-- The object-list keys contain no duplicates: the invariant maintained
by the store (bv.c only inserts a key after a failed lookup). -/
def KeysNodup (st : BVState) : Prop := (keysOf st.objects).Nodup

/-- A record with writes enabled and normal polarity, used by concrete
test states. -/
def objWritable : ObjectData := { defaultObjectData with Write_Enabled := true }

/-- A record with writes enabled and reverse polarity. -/
def objWritableReverse : ObjectData :=
  { defaultObjectData with Write_Enabled := true, Polarity := true }

/-- A record carrying a nonzero (faulted) reliability code, for witness
states. -/
def objFaulty : ObjectData := { defaultObjectData with Reliability := 3 }

/-- The properties the read dispatch recognizes (the switch cases of
bv.c lines 695-757): the required and optional lists plus Polarity,
which is readable although absent from both lists. -/
def readableProperties : List Nat :=
  Binary_Value_Properties_Required ++ Binary_Value_Properties_Optional ++ [PROP_POLARITY]

/-- The state after a wildcard create on a store: the record list with a
freshly initialized record inserted at the lowest unused non-zero key. -/
def wildcardCreatedState (st : BVState) : BVState :=
  { st with objects := Keylist_Data_Add st.objects (Keylist_Next_Empty_Key st.objects 1) defaultObjectData }

/-! ### Keylist lemmas -/

theorem Keylist_Data_update_self (l : Keylist) (k : Nat) (d p : ObjectData)
    (h : Keylist_Data l k = some p) :
    Keylist_Data (Keylist_Update l k d) k = some d := by
  induction l with
  | nil => simp [Keylist_Data] at h
  | cons e t ih =>
    obtain ⟨k0, d0⟩ := e
    by_cases hk : k0 = k
    · simp only [Keylist_Update, if_pos hk, Keylist_Data, if_pos rfl]
      simp
    · simp only [Keylist_Data, if_neg hk] at h
      simp only [Keylist_Update, if_neg hk, Keylist_Data, if_neg hk]
      exact ih h

theorem Keylist_Data_update_other (l : Keylist) (k : Nat) (d : ObjectData) (j : Nat)
    (hj : j ≠ k) :
    Keylist_Data (Keylist_Update l k d) j = Keylist_Data l j := by
  induction l with
  | nil => simp [Keylist_Update, Keylist_Data]
  | cons e t ih =>
    obtain ⟨k0, d0⟩ := e
    by_cases hk : k0 = k
    · have hkj : ¬ (k = j) := fun h => hj h.symm
      have hk0j : ¬ (k0 = j) := fun h => hkj (hk ▸ h)
      simp only [Keylist_Update, if_pos hk, Keylist_Data, if_neg hkj, if_neg hk0j]
      exact ih
    · simp only [Keylist_Update, if_neg hk, Keylist_Data]
      by_cases hk0j : k0 = j
      · rw [if_pos hk0j, if_pos hk0j]
      · rw [if_neg hk0j, if_neg hk0j]
        exact ih

theorem Keylist_Data_add_self (l : Keylist) (k : Nat) (d : ObjectData)
    (h : k ∉ keysOf l) :
    Keylist_Data (Keylist_Data_Add l k d) k = some d := by
  induction l with
  | nil => simp [Keylist_Data_Add, Keylist_Data]
  | cons e t ih =>
    obtain ⟨k0, d0⟩ := e
    simp only [keysOf, List.map_cons, List.mem_cons] at h
    push_neg at h
    by_cases hlt : k < k0
    · simp only [Keylist_Data_Add, if_pos hlt, Keylist_Data, if_pos rfl]
      simp
    · have hne : ¬ (k0 = k) := fun hc => h.1 hc.symm
      simp only [Keylist_Data_Add, if_neg hlt, Keylist_Data, if_neg hne]
      exact ih h.2

theorem Keylist_Data_add_other (l : Keylist) (k : Nat) (d : ObjectData) (j : Nat)
    (hj : j ≠ k) :
    Keylist_Data (Keylist_Data_Add l k d) j = Keylist_Data l j := by
  have hkj : ¬ (k = j) := fun h => hj h.symm
  induction l with
  | nil => simp [Keylist_Data_Add, Keylist_Data, hkj]
  | cons e t ih =>
    obtain ⟨k0, d0⟩ := e
    by_cases hlt : k < k0
    · simp only [Keylist_Data_Add, if_pos hlt, Keylist_Data, if_neg hkj]
    · simp only [Keylist_Data_Add, if_neg hlt, Keylist_Data]
      by_cases hk0j : k0 = j
      · rw [if_pos hk0j, if_pos hk0j]
      · rw [if_neg hk0j, if_neg hk0j]
        exact ih

theorem keysOf_add_perm (l : Keylist) (k : Nat) (d : ObjectData) :
    (keysOf (Keylist_Data_Add l k d)).Perm (k :: keysOf l) := by
  induction l with
  | nil => simp [Keylist_Data_Add, keysOf]
  | cons e t ih =>
    obtain ⟨k0, d0⟩ := e
    by_cases hlt : k < k0
    · simp [Keylist_Data_Add, hlt, keysOf]
    · simp only [Keylist_Data_Add, if_neg hlt, keysOf, List.map_cons]
      exact (ih.cons k0).trans (List.Perm.swap k k0 _)

theorem keysOf_add_nodup (l : Keylist) (k : Nat) (d : ObjectData)
    (hk : k ∉ keysOf l) (h : (keysOf l).Nodup) :
    (keysOf (Keylist_Data_Add l k d)).Nodup :=
  (keysOf_add_perm l k d).nodup_iff.2 (List.nodup_cons.2 ⟨hk, h⟩)

theorem Keylist_Data_isSome_iff_mem (l : Keylist) (k : Nat) :
    (Keylist_Data l k).isSome = true ↔ k ∈ keysOf l := by
  induction l with
  | nil => simp [Keylist_Data, keysOf]
  | cons e t ih =>
    obtain ⟨k0, d0⟩ := e
    by_cases hk : k0 = k
    · subst hk
      simp [Keylist_Data, keysOf]
    · have hkk : ¬ (k = k0) := fun h => hk h.symm
      simp [Keylist_Data, hk, keysOf, hkk] at ih ⊢
      exact ih

theorem Keylist_Data_eq_none_of_not_mem (l : Keylist) (k : Nat)
    (h : k ∉ keysOf l) : Keylist_Data l k = none := by
  have := Keylist_Data_isSome_iff_mem l k
  cases hh : Keylist_Data l k with
  | none => rfl
  | some d =>
    rw [hh] at this
    simp at this
    exact absurd this h

/-! ### Lowest-unused-key lemmas -/

theorem nextEmptyFrom_ge (keys : List Nat) (fuel : Nat) :
    ∀ start, start ≤ nextEmptyFrom keys fuel start := by
  induction fuel with
  | zero => intro s; simp [nextEmptyFrom]
  | succ n ih =>
    intro s
    simp only [nextEmptyFrom]
    by_cases h : s ∈ keys
    · rw [if_pos h]
      exact le_trans (Nat.le_succ s) (ih (s + 1))
    · rw [if_neg h]

theorem nextEmptyFrom_mem_of_lt (keys : List Nat) (fuel : Nat) :
    ∀ start j, start ≤ j → j < nextEmptyFrom keys fuel start → j ∈ keys := by
  induction fuel with
  | zero =>
    intro s j h1 h2
    simp only [nextEmptyFrom] at h2
    omega
  | succ n ih =>
    intro s j h1 h2
    simp only [nextEmptyFrom] at h2
    by_cases hs : s ∈ keys
    · rw [if_pos hs] at h2
      rcases Nat.eq_or_lt_of_le h1 with he | hl
      · rw [← he]; exact hs
      · exact ih (s + 1) j hl h2
    · rw [if_neg hs] at h2
      omega

theorem length_filter_mono_nat (l : List Nat) (p q : Nat → Bool)
    (h : ∀ x, p x = true → q x = true) :
    (l.filter p).length ≤ (l.filter q).length := by
  induction l with
  | nil => simp
  | cons a t ih =>
    simp only [List.filter_cons]
    by_cases hp : p a = true
    · rw [if_pos hp, if_pos (h a hp)]
      simp only [List.length_cons]
      omega
    · rw [if_neg hp]
      by_cases hq : q a = true
      · rw [if_pos hq]
        exact le_trans ih (Nat.le_succ _)
      · rw [if_neg hq]
        exact ih

theorem length_filter_ge_succ_lt (s : Nat) (keys : List Nat)
    (hnd : keys.Nodup) (hs : s ∈ keys) :
    (keys.filter (fun x => s + 1 ≤ x)).length <
      (keys.filter (fun x => s ≤ x)).length := by
  induction keys with
  | nil => simp at hs
  | cons a t ih =>
    rw [List.nodup_cons] at hnd
    simp only [List.filter_cons]
    rcases List.mem_cons.1 hs with he | hst
    · subst he
      have h1 : (decide (s + 1 ≤ s)) ≠ true := by simp
      have h2 : (decide (s ≤ s)) = true := by simp
      rw [if_neg h1, if_pos h2]
      have hmono := length_filter_mono_nat t
        (fun x => decide (s + 1 ≤ x)) (fun x => decide (s ≤ x))
        (by intro x hx; simp only [decide_eq_true_eq] at hx ⊢; omega)
      simp only [List.length_cons]
      omega
    · have h2 := ih hnd.2 hst
      by_cases h1 : s + 1 ≤ a
      · have h1a : s ≤ a := by omega
        rw [if_pos (by simpa using h1), if_pos (by simpa using h1a)]
        simp only [List.length_cons]
        omega
      · by_cases h1a : s ≤ a
        · rw [if_neg (by simpa using h1), if_pos (by simpa using h1a)]
          simp only [List.length_cons]
          omega
        · rw [if_neg (by simpa using h1), if_neg (by simpa using h1a)]
          omega

theorem nextEmptyFrom_not_mem (keys : List Nat) (hnd : keys.Nodup) (fuel : Nat) :
    ∀ start, (keys.filter (fun x => start ≤ x)).length < fuel →
      nextEmptyFrom keys fuel start ∉ keys := by
  induction fuel with
  | zero => intro s h; omega
  | succ n ih =>
    intro s h
    simp only [nextEmptyFrom]
    by_cases hs : s ∈ keys
    · rw [if_pos hs]
      apply ih
      have hlt := length_filter_ge_succ_lt s keys hnd hs
      omega
    · rw [if_neg hs]
      exact hs

theorem Keylist_Next_Empty_Key_not_mem (l : Keylist) (h : (keysOf l).Nodup) :
    Keylist_Next_Empty_Key l 1 ∉ keysOf l := by
  apply nextEmptyFrom_not_mem (keysOf l) h
  have h1 : (keysOf l).length = l.length := List.length_map _ _
  have h2 := List.length_filter_le (fun x => decide (1 ≤ x)) (keysOf l)
  omega

/-! ### Claim theorems -/

/-- C1: the claim says that after a successful administrative set of the
present value to `v` (`Binary_Value_Present_Value_Set`), reading the
present value returns `v` for both polarities.  The code violates this:
bv.c line 397 stores the constant `true` instead of the polarity-corrected
value it just computed.  At the failing input — instance 1, polarity
Normal, stored bit false, administrative set to inactive (0) — the set
reports success yet the subsequent read returns active (1). -/
theorem C1_set_read_roundtrip_fails :
    (Binary_Value_Present_Value_Set ⟨[(1, defaultObjectData)], false⟩ 1 BINARY_INACTIVE).1
      = true ∧
    Binary_Value_Present_Value
      (Binary_Value_Present_Value_Set ⟨[(1, defaultObjectData)], false⟩ 1 BINARY_INACTIVE).2 1
      = BINARY_ACTIVE := by
  constructor
  · rfl
  · rfl

/-- C2: for every existing instance whose write-enabled flag is false and
every in-range binary value, the protocol-driven present-value write
fails with error class Property / code WriteAccessDenied, leaves the
whole state (hence every field of the record) unchanged, and performs no
callback invocation. -/
theorem C2_write_disabled_denied (st : BVState) (i v : Nat) (p : ObjectData)
    (hp : Binary_Value_Object st i = some p)
    (hwe : p.Write_Enabled = false) (hv : v ≤ MAX_BINARY_PV) :
    Binary_Value_Present_Value_Write st i v =
      (false, st, [], some (ErrCls.property, ErrCode.writeAccessDenied)) := by
  unfold Binary_Value_Present_Value_Write
  rw [hp]
  simp [hv, hwe]

/-- Witness for C2 at a concrete state: one read-only record under
instance 7, callback registered, write of active (1). -/
theorem C2_write_disabled_denied_witness :
    Binary_Value_Present_Value_Write ⟨[(7, defaultObjectData)], true⟩ 7 1 =
      (false, ⟨[(7, defaultObjectData)], true⟩, [],
       some (ErrCls.property, ErrCode.writeAccessDenied)) :=
  C2_write_disabled_denied ⟨[(7, defaultObjectData)], true⟩ 7 1 defaultObjectData
    rfl rfl (by decide)

/-- C10: `Binary_Value_Polarity_Set` always returns false — also when the
instance exists and the polarity field is actually updated — and the
write dispatch ignores that result: a polarity write with the enumerated
tag and an in-range value reports success regardless. -/
theorem C10_polarity_set_always_false :
    (∀ (st : BVState) (i pol : Nat), (Binary_Value_Polarity_Set st i pol).1 = false) ∧
    (∀ (st : BVState) (i pol : Nat) (p : ObjectData), Binary_Value_Object st i = some p →
      Binary_Value_Polarity_Set st i pol =
        (false, updateObject st i { p with Polarity := pol != 0 })) ∧
    (∀ (st : BVState) (i pol len : Nat), len ≠ 0 → pol < MAX_POLARITY →
      (Binary_Value_Write_Property st
        ⟨i, PROP_POLARITY, BACNET_ARRAY_ALL, len, some (AppValue.enumerated pol)⟩).1
        = true) := by
  refine ⟨?_, ?_, ?_⟩
  · intro st i pol
    unfold Binary_Value_Polarity_Set
    cases h : Binary_Value_Object st i <;> simp
  · intro st i pol p hp
    unfold Binary_Value_Polarity_Set
    rw [hp]
  · intro st i pol len hlen hpol
    unfold Binary_Value_Write_Property
    simp only [MAX_POLARITY] at hpol
    simp [hlen, PROP_POLARITY, PROP_PRESENT_VALUE, PROP_OUT_OF_SERVICE,
      PROP_PRIORITY_ARRAY, BACNET_ARRAY_ALL, write_property_type_valid,
      typeEnumerated, hpol, MAX_POLARITY]

/-- Witness for C10: the setter returns false on an existing instance it
does update, while the dispatch reports success for the same write. -/
theorem C10_polarity_set_always_false_witness :
    (Binary_Value_Polarity_Set ⟨[(1, defaultObjectData)], false⟩ 1 1).1 = false ∧
    (Binary_Value_Write_Property ⟨[(1, defaultObjectData)], false⟩
      ⟨1, PROP_POLARITY, BACNET_ARRAY_ALL, 1, some (AppValue.enumerated 1)⟩).1 = true :=
  ⟨C10_polarity_set_always_false.1 ⟨[(1, defaultObjectData)], false⟩ 1 1,
   C10_polarity_set_always_false.2.2 ⟨[(1, defaultObjectData)], false⟩ 1 1 1
     (by decide) (by decide)⟩

/-- C3 counterexample: the claim says the callback receives the old and
new logical (polarity-corrected) present values.  At instance 1 with
reverse polarity, stored bit false (logical present value active = 1),
write-enabled, in service, callback registered, a protocol write of
inactive (0) emits the single event (1, 0, 0): its old argument 0 differs
from the old logical present value 1, and its new argument 0 differs from
the new logical present value 1 — the code passes the raw stored bits. -/
theorem C3_callback_args_counterexample :
    Binary_Value_Present_Value ⟨[(1, objWritableReverse)], true⟩ 1 = BINARY_ACTIVE ∧
    (Binary_Value_Present_Value_Write ⟨[(1, objWritableReverse)], true⟩ 1
      BINARY_INACTIVE).2.2.1 = [(1, 0, 0)] ∧
    Binary_Value_Present_Value
      (Binary_Value_Present_Value_Write ⟨[(1, objWritableReverse)], true⟩ 1
        BINARY_INACTIVE).2.1 1 = BINARY_ACTIVE :=
  ⟨rfl, rfl, rfl⟩

/-- C3 amended: for every existing, write-enabled instance and in-range
value, with the callback registered, a successful protocol write updates
the stored bit and change-of-value; it invokes the callback exactly once
with the instance, the old raw stored bit and the newly written raw value
(polarity-uncorrected; these coincide with the logical values when the
polarity is Normal) when out-of-service is false, and never when
out-of-service is true. -/
theorem C3_write_callback_gating (st : BVState) (i v : Nat) (p : ObjectData)
    (hp : Binary_Value_Object st i = some p) (hwe : p.Write_Enabled = true)
    (hv : v ≤ MAX_BINARY_PV) (hcb : st.callback = true) :
    (Binary_Value_Present_Value_Write st i v).1 = true ∧
    (Binary_Value_Present_Value_Write st i v).2.2.2 = none ∧
    Binary_Value_Object (Binary_Value_Present_Value_Write st i v).2.1 i =
      some { p with
             Present_Value := (v != 0)
             Change_Of_Value :=
               p.Change_Of_Value || ((if p.Present_Value then 1 else 0) != v) } ∧
    (Binary_Value_Present_Value_Write st i v).2.2.1 =
      (if p.Out_Of_Service then []
       else [(i, if p.Present_Value then 1 else 0, v)]) := by
  have key : ∀ d : ObjectData, Binary_Value_Object (updateObject st i d) i = some d := by
    intro d
    exact Keylist_Data_update_self st.objects i d p hp
  by_cases hcov : (if p.Present_Value then 1 else 0) ≠ v
  · have hcovb : ((if p.Present_Value then 1 else 0) != v) = true := bne_iff_ne.mpr hcov
    unfold Binary_Value_Present_Value_Write Binary_Value_Present_Value_COV_Detect
    rw [hp]
    by_cases hoos : p.Out_Of_Service = true
    · simp [hv, hwe, hcb, hcov, hoos, key, hcovb]
    · simp [hv, hwe, hcb, hcov, hoos, key, hcovb]
  · push_neg at hcov
    have hcovb : ((if p.Present_Value then 1 else 0) != v) = false := by
      simp [hcov]
    unfold Binary_Value_Present_Value_Write Binary_Value_Present_Value_COV_Detect
    rw [hp]
    by_cases hoos : p.Out_Of_Service = true
    · simp [hv, hwe, hcb, hcov, hoos, key, hcovb]
    · simp [hv, hwe, hcb, hcov, hoos, key, hcovb]

/-- Witness for C3 amended: normal polarity, in service, stored bit
false, write of active (1): stored bit and change-of-value set, one
event (2, 0, 1). -/
theorem C3_write_callback_gating_witness :
    (Binary_Value_Present_Value_Write ⟨[(2, objWritable)], true⟩ 2 1).1 = true ∧
    (Binary_Value_Present_Value_Write ⟨[(2, objWritable)], true⟩ 2 1).2.2.2 = none ∧
    Binary_Value_Object (Binary_Value_Present_Value_Write ⟨[(2, objWritable)], true⟩ 2 1).2.1 2 =
      some { objWritable with
             Present_Value := ((1 : Nat) != 0)
             Change_Of_Value :=
               objWritable.Change_Of_Value
                 || ((if objWritable.Present_Value then 1 else 0) != 1) } ∧
    (Binary_Value_Present_Value_Write ⟨[(2, objWritable)], true⟩ 2 1).2.2.1 =
      (if objWritable.Out_Of_Service then []
       else [(2, if objWritable.Present_Value then 1 else 0, 1)]) :=
  C3_write_callback_gating ⟨[(2, objWritable)], true⟩ 2 1 objWritable
    rfl rfl (by decide) rfl

/-- C4 counterexample: the claim says a successful protocol write stores
the polarity-corrected bit so that the effective present value afterwards
equals the written value.  At instance 1 with reverse polarity, a
successful write of active (1) leaves an effective present value of
inactive (0): the write path performs no polarity correction. -/
theorem C4_stored_bit_counterexample :
    (Binary_Value_Present_Value_Write ⟨[(1, objWritableReverse)], false⟩ 1
      BINARY_ACTIVE).1 = true ∧
    Binary_Value_Present_Value
      (Binary_Value_Present_Value_Write ⟨[(1, objWritableReverse)], false⟩ 1
        BINARY_ACTIVE).2.1 1 = BINARY_INACTIVE :=
  ⟨rfl, rfl⟩

/-- C4 amended: a successful protocol write stores the written bit
verbatim (no polarity correction), so the effective present value
afterwards is the written value complemented when polarity is Reverse;
change detection compares the new bit against the previous stored bit
before it is overwritten, so change-of-value is set exactly when the
stored bit changes (and stays set once set). -/
theorem C4_write_stores_verbatim (st : BVState) (i v : Nat) (p : ObjectData)
    (hp : Binary_Value_Object st i = some p) (hwe : p.Write_Enabled = true)
    (hv : v ≤ MAX_BINARY_PV) :
    (Binary_Value_Present_Value_Write st i v).1 = true ∧
    Binary_Value_Object (Binary_Value_Present_Value_Write st i v).2.1 i =
      some { p with
             Present_Value := (v != 0)
             Change_Of_Value :=
               p.Change_Of_Value || (p.Present_Value != (v != 0)) } ∧
    Binary_Value_Present_Value (Binary_Value_Present_Value_Write st i v).2.1 i =
      (if (v != 0) != p.Polarity then BINARY_ACTIVE else BINARY_INACTIVE) := by
  have key : ∀ d : ObjectData, Binary_Value_Object (updateObject st i d) i = some d := by
    intro d
    exact Keylist_Data_update_self st.objects i d p hp
  rcases Nat.le_one_iff_eq_zero_or_eq_one.1 hv with rfl | rfl <;>
    cases hpv : p.Present_Value <;> cases hpol : p.Polarity <;>
      · unfold Binary_Value_Present_Value_Write Binary_Value_Present_Value_COV_Detect
          Binary_Value_Present_Value
        rw [hp]
        simp [hwe, hpv, hpol, key, BINARY_INACTIVE, BINARY_ACTIVE, MAX_BINARY_PV]

/-- Witness for C4 amended: reverse polarity, stored bit false, write of
inactive (0): bit stored verbatim, no change, effective value active. -/
theorem C4_write_stores_verbatim_witness :
    (Binary_Value_Present_Value_Write ⟨[(3, objWritableReverse)], false⟩ 3 0).1 = true ∧
    Binary_Value_Object
      (Binary_Value_Present_Value_Write ⟨[(3, objWritableReverse)], false⟩ 3 0).2.1 3 =
      some { objWritableReverse with
             Present_Value := ((0 : Nat) != 0)
             Change_Of_Value :=
               objWritableReverse.Change_Of_Value
                 || (objWritableReverse.Present_Value != ((0 : Nat) != 0)) } ∧
    Binary_Value_Present_Value
      (Binary_Value_Present_Value_Write ⟨[(3, objWritableReverse)], false⟩ 3 0).2.1 3 =
      (if ((0 : Nat) != 0) != objWritableReverse.Polarity then BINARY_ACTIVE
       else BINARY_INACTIVE) :=
  C4_write_stores_verbatim ⟨[(3, objWritableReverse)], false⟩ 3 0 objWritableReverse
    rfl rfl (by decide)

/-- C5: for every existing instance, `Binary_Value_Reliability_Set`
fails (returning false with the state unchanged) when the code exceeds
255; otherwise it stores the code verbatim and sets change-of-value
exactly when the fault status (code nonzero) flips, keeping it when it
was already set. -/
theorem C5_reliability_set_fault_boundary (st : BVState) (i code : Nat) (p : ObjectData)
    (hp : Binary_Value_Object st i = some p) :
    (code > 255 → Binary_Value_Reliability_Set st i code = (false, st)) ∧
    (code ≤ 255 →
      Binary_Value_Reliability_Set st i code =
        (true, updateObject st i
          { p with
            Reliability := code
            Change_Of_Value :=
              p.Change_Of_Value
                || ((p.Reliability != RELIABILITY_NO_FAULT_DETECTED)
                    != (code != RELIABILITY_NO_FAULT_DETECTED)) })) := by
  constructor
  · intro hgt
    unfold Binary_Value_Reliability_Set
    rw [hp]
    have hn : ¬ (code ≤ 255) := by omega
    simp [hn]
  · intro hle
    unfold Binary_Value_Reliability_Set
    rw [hp]
    by_cases hf : (p.Reliability != RELIABILITY_NO_FAULT_DETECTED)
        ≠ (code != RELIABILITY_NO_FAULT_DETECTED)
    · have hb : ((p.Reliability != RELIABILITY_NO_FAULT_DETECTED)
          != (code != RELIABILITY_NO_FAULT_DETECTED)) = true := bne_iff_ne.mpr hf
      simp [hle, hf, hb, Binary_Value_Object_Fault]
    · push_neg at hf
      have hb : ((p.Reliability != RELIABILITY_NO_FAULT_DETECTED)
          != (code != RELIABILITY_NO_FAULT_DETECTED)) = false := by
        simp [hf]
      simp [hle, hf, hb, Binary_Value_Object_Fault]

/-- Witness for C5: code 300 is rejected; the in-range transition 3 to 7
keeps the fault status, so change-of-value stays clear. -/
theorem C5_reliability_set_fault_boundary_witness :
    Binary_Value_Reliability_Set ⟨[(4, objFaulty)], false⟩ 4 300 =
      (false, ⟨[(4, objFaulty)], false⟩) ∧
    Binary_Value_Reliability_Set ⟨[(4, objFaulty)], false⟩ 4 7 =
      (true, updateObject ⟨[(4, objFaulty)], false⟩ 4
        { objFaulty with
          Reliability := 7
          Change_Of_Value :=
            objFaulty.Change_Of_Value
              || ((objFaulty.Reliability != RELIABILITY_NO_FAULT_DETECTED)
                  != ((7 : Nat) != RELIABILITY_NO_FAULT_DETECTED)) }) :=
  ⟨(C5_reliability_set_fault_boundary ⟨[(4, objFaulty)], false⟩ 4 300 objFaulty rfl).1
      (by decide),
   (C5_reliability_set_fault_boundary ⟨[(4, objFaulty)], false⟩ 4 7 objFaulty rfl).2
      (by decide)⟩

/-- C8: a successful in-range polarity write through the dispatch sets
only the polarity field of that instance — change-of-value and every
other field are exactly as before, no other instance is touched, no
callback is invoked, and no error is reported. -/
theorem C8_polarity_write_frame (st : BVState) (i pol len : Nat) (p : ObjectData)
    (hlen : len ≠ 0) (hp : Binary_Value_Object st i = some p)
    (hpol : pol < MAX_POLARITY) :
    Binary_Value_Write_Property st
        ⟨i, PROP_POLARITY, BACNET_ARRAY_ALL, len, some (AppValue.enumerated pol)⟩ =
      (true, updateObject st i { p with Polarity := (pol != 0) }, [], none) ∧
    Binary_Value_Object (updateObject st i { p with Polarity := (pol != 0) }) i =
      some { p with Polarity := (pol != 0) } ∧
    (∀ j, j ≠ i →
      Binary_Value_Object (updateObject st i { p with Polarity := (pol != 0) }) j =
        Binary_Value_Object st j) := by
  refine ⟨?_, ?_, ?_⟩
  · unfold Binary_Value_Write_Property Binary_Value_Polarity_Set
    simp only [MAX_POLARITY] at hpol
    simp [hlen, hp, hpol, PROP_POLARITY, PROP_PRESENT_VALUE, PROP_OUT_OF_SERVICE,
      PROP_PRIORITY_ARRAY, BACNET_ARRAY_ALL, write_property_type_valid,
      typeEnumerated, MAX_POLARITY]
  · exact Keylist_Data_update_self st.objects i _ p hp
  · intro j hj
    exact Keylist_Data_update_other st.objects i _ j hj

/-- Witness for C8: reverse polarity written to a normal-polarity record;
only the polarity bit changes and the neighbouring instance 9 is
untouched. -/
theorem C8_polarity_write_frame_witness :
    Binary_Value_Write_Property ⟨[(1, defaultObjectData), (9, objFaulty)], true⟩
        ⟨1, PROP_POLARITY, BACNET_ARRAY_ALL, 1, some (AppValue.enumerated 1)⟩ =
      (true, updateObject ⟨[(1, defaultObjectData), (9, objFaulty)], true⟩ 1
        { defaultObjectData with Polarity := ((1 : Nat) != 0) }, [], none) ∧
    Binary_Value_Object
        (updateObject ⟨[(1, defaultObjectData), (9, objFaulty)], true⟩ 1
          { defaultObjectData with Polarity := ((1 : Nat) != 0) }) 1 =
      some { defaultObjectData with Polarity := ((1 : Nat) != 0) } ∧
    (∀ j, j ≠ 1 →
      Binary_Value_Object
        (updateObject ⟨[(1, defaultObjectData), (9, objFaulty)], true⟩ 1
          { defaultObjectData with Polarity := ((1 : Nat) != 0) }) j =
        Binary_Value_Object ⟨[(1, defaultObjectData), (9, objFaulty)], true⟩ j) :=
  C8_polarity_write_frame ⟨[(1, defaultObjectData), (9, objFaulty)], true⟩ 1 1 1
    defaultObjectData (by decide) rfl (by decide)

/-- C6: for every property of this object (all scalar; the reserved
priority-array is not among them) a read with a non-default array index
fails with PropertyIsNotAnArray — the override fires after the switch
encoded the value successfully. -/
theorem C6_read_nondefault_index_fails (st : BVState) (rpdata : RPData)
    (hprop : rpdata.object_property ∈ readableProperties)
    (hidx : rpdata.array_index ≠ BACNET_ARRAY_ALL) :
    Binary_Value_Read_Property st rpdata =
      ReadOutcome.err ErrCls.property ErrCode.propertyIsNotAnArray := by
  have hidxb : (rpdata.array_index != BACNET_ARRAY_ALL) = true := bne_iff_ne.mpr hidx
  simp only [readableProperties, Binary_Value_Properties_Required,
    Binary_Value_Properties_Optional, List.append_assoc, List.cons_append,
    List.nil_append, List.mem_cons, List.not_mem_nil, or_false] at hprop
  rcases hprop with h | h | h | h | h | h | h | h | h | h | h | h <;>
    simp [Binary_Value_Read_Property, h, hidxb, PROP_OBJECT_IDENTIFIER,
      PROP_OBJECT_NAME, PROP_OBJECT_TYPE, PROP_PRESENT_VALUE, PROP_STATUS_FLAGS,
      PROP_EVENT_STATE, PROP_OUT_OF_SERVICE, PROP_POLARITY, PROP_RELIABILITY,
      PROP_DESCRIPTION, PROP_ACTIVE_TEXT, PROP_INACTIVE_TEXT, PROP_PRIORITY_ARRAY]

/-- Witness for C6: reading present-value with array index 1 on an
existing instance fails with PropertyIsNotAnArray. -/
theorem C6_read_nondefault_index_fails_witness :
    Binary_Value_Read_Property ⟨[(1, defaultObjectData)], false⟩
        ⟨1, PROP_PRESENT_VALUE, 1⟩ =
      ReadOutcome.err ErrCls.property ErrCode.propertyIsNotAnArray :=
  C6_read_nondefault_index_fails ⟨[(1, defaultObjectData)], false⟩
    ⟨1, PROP_PRESENT_VALUE, 1⟩ (by decide) (by decide)

/-- C7: the write dispatch classifies errors in this precedence order:
a blob that fails to decode yields ValueOutOfRange before any other
check; with a decoded blob, a non-default array index on any property
other than the priority-array yields PropertyIsNotAnArray before the
dispatch branches on the identifier; a recognized property from the
required/optional lists other than present-value, out-of-service and
polarity yields WriteAccessDenied; an unrecognized property yields
UnknownProperty. -/
theorem C7_write_error_precedence :
    (∀ (st : BVState) (wp : WPData), wp.application_data_len ≠ 0 →
      wp.decoded = none →
      Binary_Value_Write_Property st wp =
        (false, st, [], some (ErrCls.property, ErrCode.valueOutOfRange))) ∧
    (∀ (st : BVState) (wp : WPData) (v : AppValue), wp.application_data_len ≠ 0 →
      wp.decoded = some v → wp.object_property ≠ PROP_PRIORITY_ARRAY →
      wp.array_index ≠ BACNET_ARRAY_ALL →
      Binary_Value_Write_Property st wp =
        (false, st, [], some (ErrCls.property, ErrCode.propertyIsNotAnArray))) ∧
    (∀ (st : BVState) (wp : WPData) (v : AppValue), wp.application_data_len ≠ 0 →
      wp.decoded = some v → wp.array_index = BACNET_ARRAY_ALL →
      wp.object_property ∈
        [PROP_OBJECT_IDENTIFIER, PROP_OBJECT_NAME, PROP_OBJECT_TYPE,
         PROP_STATUS_FLAGS, PROP_EVENT_STATE, PROP_DESCRIPTION, PROP_RELIABILITY,
         PROP_ACTIVE_TEXT, PROP_INACTIVE_TEXT] →
      Binary_Value_Write_Property st wp =
        (false, st, [], some (ErrCls.property, ErrCode.writeAccessDenied))) ∧
    (∀ (st : BVState) (wp : WPData) (v : AppValue), wp.application_data_len ≠ 0 →
      wp.decoded = some v → wp.array_index = BACNET_ARRAY_ALL →
      wp.object_property ≠ PROP_PRESENT_VALUE →
      wp.object_property ≠ PROP_OUT_OF_SERVICE →
      wp.object_property ≠ PROP_POLARITY →
      property_lists_member Binary_Value_Properties_Required
        Binary_Value_Properties_Optional Binary_Value_Properties_Proprietary
        wp.object_property = false →
      Binary_Value_Write_Property st wp =
        (false, st, [], some (ErrCls.property, ErrCode.unknownProperty))) := by
  refine ⟨?_, ?_, ?_, ?_⟩
  · intro st wp hlen hdec
    unfold Binary_Value_Write_Property
    simp [hlen, hdec]
  · intro st wp v hlen hdec hprop hidx
    have hpropb : (wp.object_property != PROP_PRIORITY_ARRAY) = true :=
      bne_iff_ne.mpr hprop
    have hidxb : (wp.array_index != BACNET_ARRAY_ALL) = true := bne_iff_ne.mpr hidx
    unfold Binary_Value_Write_Property
    simp [hlen, hdec, hpropb, hidxb]
  · intro st wp v hlen hdec hidx hmem
    simp only [List.mem_cons, List.not_mem_nil, or_false] at hmem
    rcases hmem with h | h | h | h | h | h | h | h | h <;>
      simp [Binary_Value_Write_Property, hlen, hdec, hidx, h,
        property_lists_member, Binary_Value_Properties_Required,
        Binary_Value_Properties_Optional, Binary_Value_Properties_Proprietary,
        PROP_OBJECT_IDENTIFIER, PROP_OBJECT_NAME, PROP_OBJECT_TYPE,
        PROP_PRESENT_VALUE, PROP_STATUS_FLAGS, PROP_EVENT_STATE,
        PROP_OUT_OF_SERVICE, PROP_POLARITY, PROP_RELIABILITY, PROP_DESCRIPTION,
        PROP_ACTIVE_TEXT, PROP_INACTIVE_TEXT, PROP_PRIORITY_ARRAY]
  · intro st wp v hlen hdec hidx h85 h81 h84 hmem
    unfold Binary_Value_Write_Property
    simp [hlen, hdec, hidx, h85, h81, h84, hmem]

/-- Witness for C7, one concrete request per precedence rule: a decode
failure on a bad-index request; a bad index with a decoded value; a
read-only recognized property (description); an unknown property (99). -/
theorem C7_write_error_precedence_witness :
    Binary_Value_Write_Property ⟨[(1, defaultObjectData)], false⟩
        ⟨1, PROP_PRESENT_VALUE, 0, 1, none⟩ =
      (false, ⟨[(1, defaultObjectData)], false⟩, [],
       some (ErrCls.property, ErrCode.valueOutOfRange)) ∧
    Binary_Value_Write_Property ⟨[(1, defaultObjectData)], false⟩
        ⟨1, PROP_PRESENT_VALUE, 0, 1, some (AppValue.enumerated 1)⟩ =
      (false, ⟨[(1, defaultObjectData)], false⟩, [],
       some (ErrCls.property, ErrCode.propertyIsNotAnArray)) ∧
    Binary_Value_Write_Property ⟨[(1, defaultObjectData)], false⟩
        ⟨1, PROP_DESCRIPTION, BACNET_ARRAY_ALL, 1, some (AppValue.enumerated 1)⟩ =
      (false, ⟨[(1, defaultObjectData)], false⟩, [],
       some (ErrCls.property, ErrCode.writeAccessDenied)) ∧
    Binary_Value_Write_Property ⟨[(1, defaultObjectData)], false⟩
        ⟨1, 99, BACNET_ARRAY_ALL, 1, some (AppValue.enumerated 1)⟩ =
      (false, ⟨[(1, defaultObjectData)], false⟩, [],
       some (ErrCls.property, ErrCode.unknownProperty)) :=
  ⟨C7_write_error_precedence.1 ⟨[(1, defaultObjectData)], false⟩
      ⟨1, PROP_PRESENT_VALUE, 0, 1, none⟩ (by decide) rfl,
   C7_write_error_precedence.2.1 ⟨[(1, defaultObjectData)], false⟩
      ⟨1, PROP_PRESENT_VALUE, 0, 1, some (AppValue.enumerated 1)⟩
      (AppValue.enumerated 1) (by decide) rfl (by decide) (by decide),
   C7_write_error_precedence.2.2.1 ⟨[(1, defaultObjectData)], false⟩
      ⟨1, PROP_DESCRIPTION, BACNET_ARRAY_ALL, 1, some (AppValue.enumerated 1)⟩
      (AppValue.enumerated 1) (by decide) rfl rfl (by decide),
   C7_write_error_precedence.2.2.2 ⟨[(1, defaultObjectData)], false⟩
      ⟨1, 99, BACNET_ARRAY_ALL, 1, some (AppValue.enumerated 1)⟩
      (AppValue.enumerated 1) (by decide) rfl rfl (by decide) (by decide) (by decide)
      (by decide)⟩

/-- On a duplicate-free store, a wildcard create allocates the lowest
unused key starting from 1 and inserts a freshly initialized record
there. -/
theorem create_wildcard_eq (st : BVState) (hnd : KeysNodup st) :
    Binary_Value_Create true st BACNET_MAX_INSTANCE =
      (Keylist_Next_Empty_Key st.objects 1, wildcardCreatedState st) := by
  have hnm := Keylist_Next_Empty_Key_not_mem st.objects hnd
  have hne := Keylist_Data_eq_none_of_not_mem _ _ hnm
  unfold Binary_Value_Create wildcardCreatedState
  simp [hne]

/-- C9: on a duplicate-free store, `Binary_Value_Create` with the
wildcard sentinel allocates the lowest unused non-zero instance (the
result is ≥ 1, absent before the call, every smaller non-zero instance is
present, and the new record is the freshly initialized one), so two
wildcard creates yield distinct instances; with an explicit instance
already present it returns that instance leaving the state untouched
(idempotent, no re-initialization); with an instance above the maximum
valid key, or when allocation fails, it returns the sentinel and leaves
the state unchanged. -/
theorem C9_create_allocation :
    (∀ st : BVState, KeysNodup st →
      1 ≤ (Binary_Value_Create true st BACNET_MAX_INSTANCE).1 ∧
      Binary_Value_Object st (Binary_Value_Create true st BACNET_MAX_INSTANCE).1 = none ∧
      (∀ j, 1 ≤ j → j < (Binary_Value_Create true st BACNET_MAX_INSTANCE).1 →
        (Binary_Value_Object st j).isSome = true) ∧
      Binary_Value_Object (Binary_Value_Create true st BACNET_MAX_INSTANCE).2
        (Binary_Value_Create true st BACNET_MAX_INSTANCE).1 = some defaultObjectData ∧
      (Binary_Value_Create true (Binary_Value_Create true st BACNET_MAX_INSTANCE).2
          BACNET_MAX_INSTANCE).1
        ≠ (Binary_Value_Create true st BACNET_MAX_INSTANCE).1) ∧
    (∀ (st : BVState) (i : Nat) (p : ObjectData) (allocOk : Bool),
      Binary_Value_Object st i = some p → i < BACNET_MAX_INSTANCE →
      Binary_Value_Create allocOk st i = (i, st)) ∧
    (∀ (st : BVState) (i : Nat) (allocOk : Bool), i > BACNET_MAX_INSTANCE →
      Binary_Value_Create allocOk st i = (BACNET_MAX_INSTANCE, st)) ∧
    (∀ (st : BVState) (i : Nat), i < BACNET_MAX_INSTANCE →
      Binary_Value_Object st i = none →
      Binary_Value_Create false st i = (BACNET_MAX_INSTANCE, st)) ∧
    (∀ st : BVState, KeysNodup st →
      Binary_Value_Create false st BACNET_MAX_INSTANCE =
        (BACNET_MAX_INSTANCE, st)) := by
  refine ⟨?_, ?_, ?_, ?_, ?_⟩
  · intro st hnd
    have hnm := Keylist_Next_Empty_Key_not_mem st.objects hnd
    have hne : Keylist_Data st.objects (Keylist_Next_Empty_Key st.objects 1) = none :=
      Keylist_Data_eq_none_of_not_mem _ _ hnm
    have hcw := create_wildcard_eq st hnd
    refine ⟨?_, ?_, ?_, ?_, ?_⟩
    · rw [hcw]
      exact nextEmptyFrom_ge (keysOf st.objects) (st.objects.length + 1) 1
    · rw [hcw]
      exact hne
    · rw [hcw]
      intro j h1 h2
      unfold Keylist_Next_Empty_Key at h2
      have hj := nextEmptyFrom_mem_of_lt (keysOf st.objects)
        (st.objects.length + 1) 1 j h1 h2
      exact (Keylist_Data_isSome_iff_mem st.objects j).2 hj
    · rw [hcw]
      exact Keylist_Data_add_self st.objects _ defaultObjectData hnm
    · rw [hcw]
      have hnd1 : KeysNodup (wildcardCreatedState st) :=
        keysOf_add_nodup st.objects _ defaultObjectData hnm hnd
      rw [create_wildcard_eq _ hnd1]
      intro hEq
      simp only at hEq
      have hnm1 := Keylist_Next_Empty_Key_not_mem _ hnd1
      have hmem : Keylist_Next_Empty_Key st.objects 1 ∈
          keysOf (wildcardCreatedState st).objects :=
        ((keysOf_add_perm st.objects _ defaultObjectData).mem_iff).2
          (List.mem_cons_self _ _)
      rw [hEq] at hnm1
      exact hnm1 hmem
  · intro st i p allocOk hp hlt
    have h1 : ¬ (i > BACNET_MAX_INSTANCE) := by
      simp only [BACNET_MAX_INSTANCE] at hlt ⊢
      omega
    have h2 : ¬ (i = BACNET_MAX_INSTANCE) := by
      simp only [BACNET_MAX_INSTANCE] at hlt ⊢
      omega
    have hp2 : Keylist_Data st.objects i = some p := hp
    unfold Binary_Value_Create
    simp [h1, h2, hp2]
  · intro st i allocOk hgt
    unfold Binary_Value_Create
    simp [hgt]
  · intro st i hlt hnone
    have h1 : ¬ (i > BACNET_MAX_INSTANCE) := by
      simp only [BACNET_MAX_INSTANCE] at hlt ⊢
      omega
    have h2 : ¬ (i = BACNET_MAX_INSTANCE) := by
      simp only [BACNET_MAX_INSTANCE] at hlt ⊢
      omega
    have hnone2 : Keylist_Data st.objects i = none := hnone
    unfold Binary_Value_Create
    simp [h1, h2, hnone2]
  · intro st hnd
    have hnm := Keylist_Next_Empty_Key_not_mem st.objects hnd
    have hne : Keylist_Data st.objects (Keylist_Next_Empty_Key st.objects 1) = none :=
      Keylist_Data_eq_none_of_not_mem _ _ hnm
    unfold Binary_Value_Create
    simp [hne]

/-- Witness for C9: on the empty store two wildcard creates give distinct
instances; creating existing instance 5 again is the identity; instance
4194304 is rejected; a failed allocation returns the sentinel. -/
theorem C9_create_allocation_witness :
    (Binary_Value_Create true (Binary_Value_Create true ⟨[], false⟩ BACNET_MAX_INSTANCE).2
        BACNET_MAX_INSTANCE).1
      ≠ (Binary_Value_Create true ⟨[], false⟩ BACNET_MAX_INSTANCE).1 ∧
    Binary_Value_Create true ⟨[(5, objFaulty)], false⟩ 5 = (5, ⟨[(5, objFaulty)], false⟩) ∧
    Binary_Value_Create true ⟨[], false⟩ 4194304 = (BACNET_MAX_INSTANCE, ⟨[], false⟩) ∧
    Binary_Value_Create false ⟨[], false⟩ 12 = (BACNET_MAX_INSTANCE, ⟨[], false⟩) :=
  ⟨(C9_create_allocation.1 ⟨[], false⟩ (by simp [KeysNodup, keysOf])).2.2.2.2,
   C9_create_allocation.2.1 ⟨[(5, objFaulty)], false⟩ 5 objFaulty true rfl (by decide),
   C9_create_allocation.2.2.1 ⟨[], false⟩ 4194304 true (by decide),
   C9_create_allocation.2.2.2.1 ⟨[], false⟩ 12 (by decide) rfl⟩
